import Mathlib

/-!
Verification of the chat-relay coordinator and session protocol.

The coordinator (`ChatServer`, from src/src/server.rs) owns the session
registry and the room-membership map and serializes all mutations; the
session handler (`WsChatSession`, from src/src/main.rs) parses frames,
runs the heartbeat, and forwards typed events to the coordinator.

Modelling choices:
  * `HashMap<usize, Recipient<Message>>` is modelled by the list of
    registered session ids (`sessions : List Nat`); a delivery is the
    pair (recipient id, text).
  * `HashMap<String, HashSet<usize>>` is modelled by an association
    list `rooms : List (String × List Nat)` with set-like member
    insertion and removal.
  * The thread rng is modelled as an input: each Connect event carries
    the `usize` the rng would have drawn.
  * `Instant` durations are natural numbers of seconds;
    `duration_since` is truncated subtraction.
-/

/-- Insert an id into a member set (HashSet.insert): no duplicate is added. -/
def memberInsert (id : Nat) (s : List Nat) : List Nat :=
  if id ∈ s then s else id :: s

/-- Remove an id from a member set (HashSet.remove). -/
def memberRemove (id : Nat) (s : List Nat) : List Nat :=
  s.filter (fun j => decide (j ≠ id))

/-- Lookup of a room key in the rooms map (HashMap.get). -/
def roomLookup : List (String × List Nat) → String → Option (List Nat)
  | [], _ => none
  | (n, ms) :: rest, r => if n = r then some ms else roomLookup rest r

/-- Member set of a room, empty when the room key is absent. -/
def roomMembers (rooms : List (String × List Nat)) (r : String) : List Nat :=
  (roomLookup rooms r).getD []

/-- The rooms map after `rooms.entry(name).or_insert_with(HashSet::new).insert(id)`:
the room is created empty when absent, then the id is added to its member set. -/
def roomInsertMember (rooms : List (String × List Nat)) (name : String) (id : Nat) :
    List (String × List Nat) :=
  match rooms with
  | [] => [(name, [id])]
  | (n, ms) :: rest =>
      if n = name then (n, memberInsert id ms) :: rest
      else (n, ms) :: roomInsertMember rest name id

/-- Remove an id from the member set of every room (the removal loops in the
Disconnect and Join handlers). -/
def roomsRemoveId (rooms : List (String × List Nat)) (id : Nat) :
    List (String × List Nat) :=
  rooms.map (fun p => (p.1, memberRemove id p.2))

/-- Names of the rooms whose member set contains the id: the rooms for which
`sessions.remove(&id)` returns true in the removal loops. -/
def roomsContaining (rooms : List (String × List Nat)) (id : Nat) : List String :=
  (rooms.filter (fun p => decide (id ∈ p.2))).map Prod.fst

/-- State of the coordinator actor (struct ChatServer, src/src/server.rs:65-70). -/
structure ChatServer where
  sessions : List Nat
  rooms : List (String × List Nat)
  visitor_count : Nat
deriving Repr, DecidableEq

/-- ChatServer::new (src/src/server.rs:73-84): empty registry, the rooms map
pre-seeded with the default room "Main", counter at zero. -/
def ChatServer.new : ChatServer :=
  { sessions := [], rooms := [("Main", [])], visitor_count := 0 }

/-- ChatServer::send_message (src/src/server.rs:89-99): look up the room; for
every member other than `skip_id` that has a registered handle, deliver the
text; a missing room or missing handle is silently skipped. -/
def send_message (s : ChatServer) (room msg : String) (skip_id : Nat) :
    List (Nat × String) :=
  match roomLookup s.rooms room with
  | none => []
  | some members =>
      (members.filter (fun id => decide (id ≠ skip_id ∧ id ∈ s.sessions))).map
        (fun id => (id, msg))

/-- Output of the Connect handler: the post state, the returned id, and the
two broadcasts it performs, in program order. -/
structure ConnectOut where
  state : ChatServer
  newId : Nat
  joinedNotice : List (Nat × String)
  visitorNotice : List (Nat × String)
deriving Repr, DecidableEq

/-- Handler<Connect> (src/src/server.rs:114-135): broadcast "Someone joined"
to "Main" skipping id 0, register the rng draw `rid` as the new id, insert it
into "Main", fetch-and-add the visitor counter, broadcast the prior counter
value to "Main" skipping id 0, and return the id. -/
def handleConnect (s : ChatServer) (rid : Nat) : ConnectOut :=
  let joined := send_message s "Main" "Someone joined" 0
  let sessions' := memberInsert rid s.sessions
  let rooms' := roomInsertMember s.rooms "Main" rid
  let count := s.visitor_count
  let s' : ChatServer :=
    { sessions := sessions', rooms := rooms', visitor_count := count + 1 }
  let visitors := send_message s' "Main" ("Total visitors " ++ toString count) 0
  { state := s', newId := rid, joinedNotice := joined, visitorNotice := visitors }

/-- Output of a fire-and-forget handler: post state and deliveries. -/
structure HandlerOut where
  state : ChatServer
  notices : List (Nat × String)
deriving Repr, DecidableEq

/-- Handler<Disconnect> (src/src/server.rs:142-160): only when the id was in
the registry, remove it from the registry and from every room, then broadcast
"Someone disconnected" to each vacated room skipping id 0; otherwise nothing
changes and nothing is sent. -/
def handleDisconnect (s : ChatServer) (id : Nat) : HandlerOut :=
  if id ∈ s.sessions then
    let vacated := roomsContaining s.rooms id
    let s' : ChatServer :=
      { sessions := memberRemove id s.sessions,
        rooms := roomsRemoveId s.rooms id,
        visitor_count := s.visitor_count }
    { state := s',
      notices := vacated.flatMap (fun r => send_message s' r "Someone disconnected" 0) }
  else
    { state := s, notices := [] }

/-- Handler<ClientMessage> (src/src/server.rs:164-170): broadcast the text to
the named room, skipping the sender; the state is untouched. -/
def handleClientMessage (s : ChatServer) (id : Nat) (room msg : String) :
    HandlerOut :=
  { state := s, notices := send_message s room msg id }

/-- Handler<ListRooms> (src/src/server.rs:176-184): the list of room keys. -/
def handleListRooms (s : ChatServer) : List String :=
  s.rooms.map Prod.fst

/-- Handler<Join> (src/src/server.rs:192-213): remove the id from every room,
broadcast "Someone disconnected" to each vacated room skipping id 0, create
the target room if absent, insert the id, and broadcast "Someone connected"
to the target room skipping the joining id. -/
def handleJoin (s : ChatServer) (id : Nat) (name : String) : HandlerOut :=
  let vacated := roomsContaining s.rooms id
  let rooms1 := roomsRemoveId s.rooms id
  let s1 : ChatServer :=
    { sessions := s.sessions, rooms := rooms1, visitor_count := s.visitor_count }
  let notices := vacated.flatMap (fun r => send_message s1 r "Someone disconnected" 0)
  let rooms2 := roomInsertMember rooms1 name id
  let s2 : ChatServer :=
    { sessions := s.sessions, rooms := rooms2, visitor_count := s.visitor_count }
  { state := s2, notices := notices ++ send_message s2 name "Someone connected" id }

/-- Events the coordinator consumes, serialized one at a time. A Connect
event carries the value the thread rng draws while handling it. -/
inductive Event where
  | connect (rid : Nat)
  | disconnect (id : Nat)
  | join (id : Nat) (roomName : String)
  | clientMessage (id : Nat) (room : String) (msg : String)
  | listRooms
deriving Repr, DecidableEq

/-- State transition of the coordinator on one event. -/
def step (s : ChatServer) : Event → ChatServer
  | .connect rid => (handleConnect s rid).state
  | .disconnect id => (handleDisconnect s id).state
  | .join id nm => (handleJoin s id nm).state
  | .clientMessage id room msg => (handleClientMessage s id room msg).state
  | .listRooms => s

/-- Coordinator state after consuming a sequence of events. -/
def run (s : ChatServer) : List Event → ChatServer
  | [] => s
  | e :: es => run (step s e) es

/-- The SessionIds returned by the Connect operations of a run, in order. -/
def connectResults (s : ChatServer) : List Event → List Nat
  | [] => []
  | .connect rid :: es =>
      (handleConnect s rid).newId :: connectResults (handleConnect s rid).state es
  | e :: es => connectResults (step s e) es

/-- The rng draws carried by the Connect events of a sequence, in order. -/
def connectDraws : List Event → List Nat
  | [] => []
  | .connect rid :: es => rid :: connectDraws es
  | _ :: es => connectDraws es

/-- Number of Connect events in a sequence. -/
def countConnects (es : List Event) : Nat :=
  (connectDraws es).length

/-- Room names carried by the Join events of a sequence. -/
def joinedNames : List Event → List String
  | [] => []
  | .join _ nm :: es => nm :: joinedNames es
  | _ :: es => joinedNames es

/-- HEARTBEAT_INTERVAL (src/src/main.rs:15): seconds between heartbeat ticks. -/
def HEARTBEAT_INTERVAL : Nat := 5

/-- CLIENT_TIMEOUT (src/src/main.rs:17): seconds of silence before timeout. -/
def CLIENT_TIMEOUT : Nat := 10

/-- Session-local state (struct WsChatSession, src/src/main.rs:44-55): id
assigned by the coordinator, last-heartbeat timestamp, current room, and
optional display name. -/
structure WsChatSession where
  id : Nat
  hb : Nat
  room : String
  name : Option String
deriving Repr, DecidableEq

/-- Output of one heartbeat tick: the (unchanged) session state, the ids of
Disconnect notifications sent to the coordinator, whether a liveness ping was
emitted, and whether the actor was stopped. -/
structure HbTickOut where
  state : WsChatSession
  disconnects : List Nat
  pinged : Bool
  stopped : Bool
deriving Repr, DecidableEq

/-- One tick of WsChatSession::hb (src/src/main.rs:203-222): when the gap
since the last heartbeat exceeds CLIENT_TIMEOUT, send Disconnect to the
coordinator, stop the actor and return without pinging; otherwise ping. -/
def WsChatSession.hbTick (act : WsChatSession) (now : Nat) : HbTickOut :=
  if now - act.hb > CLIENT_TIMEOUT then
    { state := act, disconnects := [act.id], pinged := false, stopped := true }
  else
    { state := act, disconnects := [], pinged := true, stopped := false }

/-- Frames the websocket stream handler receives (ws::Message). Payloads are
kept as strings; binary payloads are never decoded. -/
inductive WsMessage where
  | ping (payload : String)
  | pong (payload : String)
  | text (s : String)
  | binary (payload : String)
  | close
  | continuation
  | nop
deriving Repr, DecidableEq

/-- Lines and control frames the session writes back to its own client. -/
inductive OutAction where
  | pong (payload : String)
  | text (s : String)
  | close
deriving Repr, DecidableEq

/-- Output of handling one inbound frame: the new session state, what is
written back to the client, the events sent to the coordinator, and whether
the actor was stopped. -/
structure FrameOut where
  state : WsChatSession
  out : List OutAction
  toCoord : List Event
  stopped : Bool
deriving Repr, DecidableEq

/-- Whitespace test used by Rust's `str::trim` (restricted to the ASCII
whitespace characters, which are the only ones the protocol strings use). -/
def isWhitespaceChar (c : Char) : Bool :=
  c = ' ' ∨ c = '\t' ∨ c = '\n' ∨ c = '\r'

/-- Rust's `str::trim`: strip leading and trailing whitespace. -/
def rustTrim (s : String) : String :=
  String.mk (((s.data.dropWhile isWhitespaceChar).reverse.dropWhile
    isWhitespaceChar).reverse)

/-- Rust's `str::starts_with` on a single-character pattern. -/
def rustStartsWith (s : String) (c : Char) : Bool :=
  match s.data with
  | [] => false
  | c0 :: _ => c0 = c

/-- Split a character list at its first space, when it has one. -/
def splitAtFirstSpace : List Char → Option (List Char × List Char)
  | [] => none
  | c :: rest =>
      if c = ' ' then some ([], rest)
      else
        match splitAtFirstSpace rest with
        | none => none
        | some (a, b) => some (c :: a, b)

/-- Rust's `splitn(2, ' ')`: split at the first space only; without a space
the whole string is the single piece. -/
def splitn2 (s : String) : List String :=
  match splitAtFirstSpace s.data with
  | none => [s]
  | some (a, b) => [String.mk a, String.mk b]

/-- Rust's `format!("{:?}", m)` on a str, as used by the unknown-command
reply: the text surrounded by double quotes, with quotes and backslashes
escaped. -/
def rustDebug (s : String) : String :=
  "\"" ++ String.mk (s.data.flatMap
    (fun c => if c = '"' ∨ c = '\\' then ['\\', c] else [c])) ++ "\""

/-- The text-frame branch of the stream handler (src/src/main.rs:125-186):
trim, then either dispatch a "/"-command or forward the (possibly
name-prefixed) text as a ClientMessage tagged with the session's room. -/
def handleTextFrame (act : WsChatSession) (text : String) : FrameOut :=
  let m := rustTrim text
  if rustStartsWith m '/' then
    let v := splitn2 m
    let cmd := v.headD ""
    if cmd = "/list" then
      { state := act, out := [], toCoord := [Event.listRooms], stopped := false }
    else if cmd = "/join" then
      if v.length = 2 then
        let newRoom := v.getD 1 ""
        { state := { act with room := newRoom },
          out := [OutAction.text "joined"],
          toCoord := [Event.join act.id newRoom],
          stopped := false }
      else
        { state := act, out := [OutAction.text "!!! room name is required"],
          toCoord := [], stopped := false }
    else if cmd = "/name" then
      if v.length = 2 then
        { state := { act with name := some (v.getD 1 "") },
          out := [], toCoord := [], stopped := false }
      else
        { state := act, out := [OutAction.text "!!! name is required"],
          toCoord := [], stopped := false }
    else
      { state := act, out := [OutAction.text ("!!! unknown command: " ++ rustDebug m)],
        toCoord := [], stopped := false }
  else
    let msg :=
      match act.name with
      | some nm => nm ++ ": " ++ m
      | none => m
    { state := act, out := [],
      toCoord := [Event.clientMessage act.id act.room msg], stopped := false }

/-- The stream handler on a successfully decoded frame
(src/src/main.rs:117-196): Ping refreshes the heartbeat timestamp and is
answered with a matching Pong; Pong refreshes the timestamp; Text is parsed;
Binary is accepted and ignored; Close echoes the close and stops;
Continuation stops; Nop does nothing. -/
def handleFrame (act : WsChatSession) (now : Nat) : WsMessage → FrameOut
  | .ping p =>
      { state := { act with hb := now }, out := [OutAction.pong p],
        toCoord := [], stopped := false }
  | .pong _ =>
      { state := { act with hb := now }, out := [], toCoord := [], stopped := false }
  | .text t => handleTextFrame act t
  | .binary _ => { state := act, out := [], toCoord := [], stopped := false }
  | .close =>
      { state := act, out := [OutAction.close], toCoord := [], stopped := true }
  | .continuation => { state := act, out := [], toCoord := [], stopped := true }
  | .nop => { state := act, out := [], toCoord := [], stopped := false }

/-- The ways a session terminates (spec §5; src/src/main.rs). -/
inductive TermPath where
  | protocolError
  | closeFrame
  | heartbeatTimeout
  | forcedStop
deriving Repr, DecidableEq

/-- Disconnect ids sent by Actor::stopping (src/src/main.rs:85-89), which
actix runs once on every stop path. -/
def stoppingDisconnects (act : WsChatSession) : List Nat :=
  [act.id]

/-- Disconnect ids a termination path sends before the actor stop is
processed: only the heartbeat-timeout branch (src/src/main.rs:211) performs
its own `do_send(Disconnect)` ahead of `ctx.stop()`; the protocol-error
branch (main.rs:110), the close-frame branch (main.rs:188-191) and a forced
stop call `ctx.stop()` directly. -/
def preStopDisconnects (act : WsChatSession) : TermPath → List Nat
  | .heartbeatTimeout => [act.id]
  | _ => []

/-- All Disconnect notifications a session sends to the coordinator when it
terminates via a given path: the path's own sends followed by the one from
Actor::stopping. -/
def terminationDisconnects (act : WsChatSession) (p : TermPath) : List Nat :=
  preStopDisconnects act p ++ stoppingDisconnects act

/-! Basic lemmas about the member-set and rooms-map operations. -/

theorem mem_memberInsert {j id : Nat} {s : List Nat} :
    j ∈ memberInsert id s ↔ j = id ∨ j ∈ s := by
  unfold memberInsert
  split
  · rename_i h
    exact ⟨Or.inr, fun hj => hj.elim (fun e => by rw [e]; exact h) (fun hs => hs)⟩
  · exact List.mem_cons

theorem mem_memberRemove {j id : Nat} {s : List Nat} :
    j ∈ memberRemove id s ↔ j ∈ s ∧ j ≠ id := by
  simp [memberRemove, List.mem_filter]

theorem roomMembers_cons (n : String) (ms : List Nat)
    (rest : List (String × List Nat)) (r : String) :
    roomMembers ((n, ms) :: rest) r = if n = r then ms else roomMembers rest r := by
  by_cases h : n = r <;> simp [roomMembers, roomLookup, h]

theorem roomMembers_roomInsertMember (rooms : List (String × List Nat))
    (name r : String) (id : Nat) :
    roomMembers (roomInsertMember rooms name id) r =
      if r = name then memberInsert id (roomMembers rooms name)
      else roomMembers rooms r := by
  induction rooms with
  | nil =>
      by_cases h : r = name
      · subst h
        simp [roomInsertMember, roomMembers_cons, memberInsert, roomMembers, roomLookup]
      · simp [roomInsertMember, roomMembers_cons, h, Ne.symm h, roomMembers, roomLookup]
  | cons p rest ih =>
      obtain ⟨n, ms⟩ := p
      by_cases hn : n = name
      · subst hn
        by_cases hr : n = r
        · subst hr
          simp [roomInsertMember, roomMembers_cons]
        · have hr2 : ¬ r = n := fun e => hr e.symm
          simp [roomInsertMember, roomMembers_cons, hr, hr2]
      · by_cases hr : n = r
        · subst hr
          simp [roomInsertMember, hn, roomMembers_cons]
        · simp [roomInsertMember, hn, hr, roomMembers_cons, ih]

theorem roomMembers_roomsRemoveId (rooms : List (String × List Nat))
    (id : Nat) (r : String) :
    roomMembers (roomsRemoveId rooms id) r = memberRemove id (roomMembers rooms r) := by
  induction rooms with
  | nil => rfl
  | cons p rest ih =>
      obtain ⟨n, ms⟩ := p
      by_cases h : n = r <;>
        simp [roomsRemoveId, roomMembers_cons, h, ih, List.map_cons] <;>
        simp [roomsRemoveId] at ih <;> exact ih

/-- Characterization of one broadcast: a delivery (j, t) happens exactly when
j is a member of the room, j is not the skipped id, j has a registered
handle, and t is the broadcast text. -/
theorem mem_send_message {s : ChatServer} {room msg : String} {skip j : Nat}
    {t : String} :
    (j, t) ∈ send_message s room msg skip ↔
      j ∈ roomMembers s.rooms room ∧ j ≠ skip ∧ j ∈ s.sessions ∧ t = msg := by
  unfold send_message
  cases h : roomLookup s.rooms room with
  | none => simp [roomMembers, h]
  | some members =>
      simp only [roomMembers, h, Option.getD_some, List.mem_map, List.mem_filter,
        decide_eq_true_eq, Prod.mk.injEq]
      constructor
      · rintro ⟨a, ⟨ha, hskip, hsess⟩, rfl, rfl⟩
        exact ⟨ha, hskip, hsess, rfl⟩
      · rintro ⟨hj, hskip, hsess, rfl⟩
        exact ⟨j, ⟨hj, hskip, hsess⟩, rfl, rfl⟩

theorem roomKeys_roomsRemoveId (rooms : List (String × List Nat)) (id : Nat) :
    (roomsRemoveId rooms id).map Prod.fst = rooms.map Prod.fst := by
  induction rooms with
  | nil => rfl
  | cons p rest ih =>
      simp only [roomsRemoveId, List.map_cons] at ih ⊢
      rw [ih]

theorem self_mem_roomKeys_roomInsertMember (rooms : List (String × List Nat))
    (name : String) (id : Nat) :
    name ∈ (roomInsertMember rooms name id).map Prod.fst := by
  induction rooms with
  | nil => simp [roomInsertMember]
  | cons p rest ih =>
      obtain ⟨n, ms⟩ := p
      by_cases hn : n = name
      · subst hn
        simp [roomInsertMember]
      · simp only [roomInsertMember, if_neg hn, List.map_cons, List.mem_cons]
        exact Or.inr ih

theorem mem_roomKeys_roomInsertMember (rooms : List (String × List Nat))
    (name : String) (id : Nat) {r : String}
    (h : r ∈ rooms.map Prod.fst) :
    r ∈ (roomInsertMember rooms name id).map Prod.fst := by
  induction rooms with
  | nil => cases h
  | cons p rest ih =>
      obtain ⟨n, ms⟩ := p
      by_cases hn : n = name
      · subst hn
        simpa [roomInsertMember] using h
      · simp only [roomInsertMember, if_neg hn, List.map_cons, List.mem_cons] at h ⊢
        exact h.elim Or.inl (fun hr => Or.inr (ih hr))

/-- No coordinator operation removes a room key. -/
theorem roomKeys_mono_step {r : String} (s : ChatServer) (e : Event)
    (h : r ∈ handleListRooms s) : r ∈ handleListRooms (step s e) := by
  cases e with
  | connect rid =>
      exact mem_roomKeys_roomInsertMember s.rooms "Main" rid h
  | disconnect i =>
      show r ∈ (handleDisconnect s i).state.rooms.map Prod.fst
      unfold handleDisconnect
      split
      · show r ∈ (roomsRemoveId s.rooms i).map Prod.fst
        rw [roomKeys_roomsRemoveId]
        exact h
      · exact h
  | join i nm =>
      show r ∈ (roomInsertMember (roomsRemoveId s.rooms i) nm i).map Prod.fst
      apply mem_roomKeys_roomInsertMember
      rw [roomKeys_roomsRemoveId]
      exact h
  | clientMessage i room msg => exact h
  | listRooms => exact h

theorem roomKeys_mono_run {r : String} (s : ChatServer) (es : List Event)
    (h : r ∈ handleListRooms s) : r ∈ handleListRooms (run s es) := by
  induction es generalizing s with
  | nil => exact h
  | cons e es ih => exact ih _ (roomKeys_mono_step s e h)

/-- Every room name a Join event of the sequence carries is a key of the
final rooms map. -/
theorem joinedNames_subset_roomKeys (es : List Event) (s : ChatServer)
    {n : String} (hn : n ∈ joinedNames es) :
    n ∈ handleListRooms (run s es) := by
  induction es generalizing s with
  | nil => cases hn
  | cons e es ih =>
      cases e with
      | connect rid => exact ih (step s (Event.connect rid)) hn
      | disconnect i => exact ih (step s (Event.disconnect i)) hn
      | join i nm =>
          rcases List.mem_cons.mp hn with h | h
          · subst h
            show n ∈ handleListRooms (run (step s (Event.join i n)) es)
            exact roomKeys_mono_run (step s (Event.join i n)) es
              (self_mem_roomKeys_roomInsertMember (roomsRemoveId s.rooms i) n i)
          · exact ih (step s (Event.join i nm)) h
      | clientMessage i room msg => exact ih (step s (Event.clientMessage i room msg)) hn
      | listRooms => exact ih (step s Event.listRooms) hn

/-- The visitor counter counts exactly the Connect events of a run. -/
theorem visitor_count_run (es : List Event) (s : ChatServer) :
    (run s es).visitor_count = s.visitor_count + countConnects es := by
  induction es generalizing s with
  | nil => simp [run, countConnects, connectDraws]
  | cons e es ih =>
      cases e with
      | connect rid =>
          show (run (handleConnect s rid).state es).visitor_count = _
          rw [ih]
          simp [handleConnect, countConnects, connectDraws]
          omega
      | disconnect i =>
          show (run (handleDisconnect s i).state es).visitor_count = _
          rw [ih]
          have : (handleDisconnect s i).state.visitor_count = s.visitor_count := by
            unfold handleDisconnect
            split <;> rfl
          rw [this]
          simp [countConnects, connectDraws]
      | join i nm =>
          show (run (handleJoin s i nm).state es).visitor_count = _
          rw [ih]
          simp [handleJoin, countConnects, connectDraws]
      | clientMessage i room msg =>
          show (run (handleClientMessage s i room msg).state es).visitor_count = _
          rw [ih]
          simp [handleClientMessage, countConnects, connectDraws]
      | listRooms =>
          show (run s es).visitor_count = _
          rw [ih]
          simp [countConnects, connectDraws]

/-- A session id is never in the registry right after its Disconnect is
handled. -/
theorem not_mem_sessions_handleDisconnect (s : ChatServer) (id : Nat) :
    id ∉ (handleDisconnect s id).state.sessions := by
  unfold handleDisconnect
  split
  · intro hmem
    exact (mem_memberRemove.mp hmem).2 rfl
  · rename_i h
    exact h

/-- Disconnect for an id that is not in the registry changes nothing and
sends nothing. -/
theorem handleDisconnect_of_not_mem {s : ChatServer} {id : Nat}
    (h : id ∉ s.sessions) :
    handleDisconnect s id = { state := s, notices := [] } := by
  unfold handleDisconnect
  rw [if_neg h]

/-- The Connect operations of a run return exactly the rng draws. -/
theorem connectResults_eq_connectDraws (s : ChatServer) (es : List Event) :
    connectResults s es = connectDraws es := by
  induction es generalizing s with
  | nil => rfl
  | cons e es ih =>
      cases e with
      | connect rid =>
          show rid :: connectResults (handleConnect s rid).state es = rid :: connectDraws es
          rw [ih]
      | disconnect i => exact ih (step s (Event.disconnect i))
      | join i nm => exact ih (step s (Event.join i nm))
      | clientMessage i room msg => exact ih (step s (Event.clientMessage i room msg))
      | listRooms => exact ih (step s Event.listRooms)

/-! Claim theorems. -/

/-- Claim C1, counterexample: the Connect handler returns the raw rng draw
without any uniqueness check, so when the rng repeats a value two Connects
return the same SessionId. -/
theorem connect_ids_can_collide :
    connectResults ChatServer.new [Event.connect 5, Event.connect 5] = [5, 5] ∧
    ¬ (connectResults ChatServer.new [Event.connect 5, Event.connect 5]).Nodup := by
  decide

/-- Claim C1, amended: every Connect returns exactly the value the rng drew
for it, so the returned SessionIds are pairwise distinct whenever the rng
draws are pairwise distinct; the code itself enforces no uniqueness. -/
theorem connect_ids_unique_of_distinct_draws (s : ChatServer) (es : List Event)
    (h : (connectDraws es).Nodup) :
    connectResults s es = connectDraws es ∧ (connectResults s es).Nodup := by
  refine ⟨connectResults_eq_connectDraws s es, ?_⟩
  rw [connectResults_eq_connectDraws]
  exact h

/-- Claim C1, witness: a run with the two distinct draws 5 and 9. -/
theorem connect_ids_unique_of_distinct_draws_witness :
    connectResults ChatServer.new [Event.connect 5, Event.connect 9] =
      connectDraws [Event.connect 5, Event.connect 9] ∧
    (connectResults ChatServer.new [Event.connect 5, Event.connect 9]).Nodup :=
  connect_ids_unique_of_distinct_draws ChatServer.new
    [Event.connect 5, Event.connect 9] (by decide)

/-- Claim C2, counterexample: on the first connection with rng draw 3, the
visitor-counter broadcast is delivered to the newly connected session 3
itself, because send_message is called with skip_id 0, not the new id. -/
theorem visitor_notice_reaches_new_session :
    (handleConnect ChatServer.new 3).newId = 3 ∧
    ((3 : Nat), "Total visitors 0") ∈ (handleConnect ChatServer.new 3).visitorNotice := by
  decide

/-- Claim C2, amended: the visitor-counter notification is delivered to every
member of "Main" with a registered handle except id 0 — the new session is
already a member and a registered handle at that point, so whenever its id is
nonzero it receives the notification itself. -/
theorem visitor_notice_excludes_only_id_zero (s : ChatServer) (rid : Nat)
    (h : rid ≠ 0) :
    (∀ j t, (j, t) ∈ (handleConnect s rid).visitorNotice ↔
      (j ∈ roomMembers (handleConnect s rid).state.rooms "Main" ∧ j ≠ 0 ∧
        j ∈ (handleConnect s rid).state.sessions ∧
        t = "Total visitors " ++ toString s.visitor_count)) ∧
    ((rid, "Total visitors " ++ toString s.visitor_count) ∈
      (handleConnect s rid).visitorNotice) := by
  have key : ∀ j t, (j, t) ∈ (handleConnect s rid).visitorNotice ↔
      (j ∈ roomMembers (handleConnect s rid).state.rooms "Main" ∧ j ≠ 0 ∧
        j ∈ (handleConnect s rid).state.sessions ∧
        t = "Total visitors " ++ toString s.visitor_count) := by
    intro j t
    have hrw : (handleConnect s rid).visitorNotice =
        send_message (handleConnect s rid).state "Main"
          ("Total visitors " ++ toString s.visitor_count) 0 := rfl
    rw [hrw]
    exact mem_send_message
  refine ⟨key, (key rid _).mpr ⟨?_, h, ?_, rfl⟩⟩
  · show rid ∈ roomMembers (roomInsertMember s.rooms "Main" rid) "Main"
    rw [roomMembers_roomInsertMember]
    simp [mem_memberInsert]
  · exact mem_memberInsert.mpr (Or.inl rfl)

/-- Claim C2, witness: the amended statement at the initial state with rng
draw 3. -/
theorem visitor_notice_excludes_only_id_zero_witness :
    (∀ j t, (j, t) ∈ (handleConnect ChatServer.new 3).visitorNotice ↔
      (j ∈ roomMembers (handleConnect ChatServer.new 3).state.rooms "Main" ∧ j ≠ 0 ∧
        j ∈ (handleConnect ChatServer.new 3).state.sessions ∧
        t = "Total visitors " ++ toString ChatServer.new.visitor_count)) ∧
    ((3, "Total visitors " ++ toString ChatServer.new.visitor_count) ∈
      (handleConnect ChatServer.new 3).visitorNotice) :=
  visitor_notice_excludes_only_id_zero ChatServer.new 3 (by decide)

/-- Claim C3, counterexample: on the heartbeat-timeout path the session sends
two Disconnect notifications, not one — one from the timer closure and one
from Actor::stopping after ctx.stop(). -/
theorem heartbeat_timeout_sends_two_disconnects :
    ¬ (terminationDisconnects { id := 42, hb := 0, room := "Main", name := none }
        TermPath.heartbeatTimeout).length = 1 := by
  decide

/-- Claim C3, amended: every termination path sends at least one Disconnect
carrying the session's id; the protocol-error, close-frame and forced-stop
paths send exactly one, while the heartbeat-timeout path sends two — and the
second is a no-op at the coordinator because the id is no longer registered. -/
theorem termination_disconnect_count (act : WsChatSession) (p : TermPath) :
    (terminationDisconnects act p =
      if p = TermPath.heartbeatTimeout then [act.id, act.id] else [act.id]) ∧
    terminationDisconnects act p ≠ [] ∧
    (∀ i, i ∈ terminationDisconnects act p → i = act.id) ∧
    (∀ c : ChatServer,
      handleDisconnect (handleDisconnect c act.id).state act.id =
        { state := (handleDisconnect c act.id).state, notices := [] }) := by
  refine ⟨?_, ?_, ?_,
    fun c => handleDisconnect_of_not_mem (not_mem_sessions_handleDisconnect c act.id)⟩
  · cases p <;> simp [terminationDisconnects, preStopDisconnects, stoppingDisconnects]
  · cases p <;> simp [terminationDisconnects, preStopDisconnects, stoppingDisconnects]
  · intro i hi
    cases p <;>
      simp_all [terminationDisconnects, preStopDisconnects, stoppingDisconnects]

/-- Claim C4: after Join(id, R) the id is a member of R and of no other room,
so each session occupies exactly one room; a later Join(id, R2) is the same
statement at the new state, so it removes the id from R before R2. -/
theorem join_places_id_in_exactly_target_room (s : ChatServer) (id : Nat)
    (name r : String) :
    id ∈ roomMembers (handleJoin s id name).state.rooms r ↔ r = name := by
  show id ∈ roomMembers (roomInsertMember (roomsRemoveId s.rooms id) name id) r ↔ r = name
  rw [roomMembers_roomInsertMember]
  by_cases h : r = name
  · simp [h, mem_memberInsert]
  · simp [h, roomMembers_roomsRemoveId, mem_memberRemove]

/-- Claim C5, counterexample: Disconnect prunes rooms only when the id was in
the session registry; Join inserts an id into a room without checking the
registry, so after Join(7, "Foo") with 7 unregistered, Disconnect(7) leaves 7
in room "Foo". -/
theorem disconnect_leaves_unregistered_member_in_room :
    (7 : Nat) ∈ roomMembers
      (handleDisconnect (run ChatServer.new [Event.join 7 "Foo"]) 7).state.rooms
      "Foo" := by
  decide

/-- Claim C5, amended: when the id is in the session registry, Disconnect
removes it from the registry and from the member set of every room; in every
case the id is afterwards absent from the registry, so no broadcast from the
resulting state delivers any message to it; only an id occupying a room while
unregistered keeps its room membership. -/
theorem disconnect_removes_registered_id (s : ChatServer) (id : Nat)
    (h : id ∈ s.sessions) :
    id ∉ (handleDisconnect s id).state.sessions ∧
    (∀ r, id ∉ roomMembers (handleDisconnect s id).state.rooms r) ∧
    (∀ room msg skip t,
      (id, t) ∉ send_message (handleDisconnect s id).state room msg skip) := by
  refine ⟨not_mem_sessions_handleDisconnect s id, ?_, ?_⟩
  · intro r hmem
    have hst : (handleDisconnect s id).state.rooms = roomsRemoveId s.rooms id := by
      unfold handleDisconnect
      rw [if_pos h]
    rw [hst, roomMembers_roomsRemoveId] at hmem
    exact (mem_memberRemove.mp hmem).2 rfl
  · intro room msg skip t hmem
    exact not_mem_sessions_handleDisconnect s id (mem_send_message.mp hmem).2.2.1

/-- Claim C5, witness: the amended statement after one Connect with draw 5. -/
theorem disconnect_removes_registered_id_witness :
    (5 : Nat) ∉ (handleDisconnect (run ChatServer.new [Event.connect 5]) 5).state.sessions ∧
    (∀ r, (5 : Nat) ∉ roomMembers
      (handleDisconnect (run ChatServer.new [Event.connect 5]) 5).state.rooms r) ∧
    (∀ room msg skip t, ((5 : Nat), t) ∉ send_message
      (handleDisconnect (run ChatServer.new [Event.connect 5]) 5).state room msg skip) :=
  disconnect_removes_registered_id (run ChatServer.new [Event.connect 5]) 5 (by decide)

/-- Claim C6: ClientMessage leaves the state untouched and delivers the text
exactly to the members of the named room that have a registered handle, the
sender excluded; the sender never receives it, and a missing room delivers
nothing (and the handler is total, so no error is raised). -/
theorem client_message_fanout (s : ChatServer) (id : Nat) (room msg : String) :
    (handleClientMessage s id room msg).state = s ∧
    (∀ j t, (j, t) ∈ (handleClientMessage s id room msg).notices ↔
      (j ∈ roomMembers s.rooms room ∧ j ≠ id ∧ j ∈ s.sessions ∧ t = msg)) ∧
    (∀ t, (id, t) ∉ (handleClientMessage s id room msg).notices) ∧
    (roomLookup s.rooms room = none → (handleClientMessage s id room msg).notices = []) := by
  refine ⟨rfl, fun j t => mem_send_message, fun t hmem => ?_, fun hnone => ?_⟩
  · exact (mem_send_message.mp hmem).2.1 rfl
  · show send_message s room msg id = []
    simp [send_message, hnone]

/-- Claim C7: in every reachable coordinator state the rooms map contains
"Main" (pre-seeded by ChatServer::new) and every room name ever joined, and
no operation removes a room key, so ListRooms always returns them. -/
theorem rooms_grow_and_keep_main (es : List Event) :
    "Main" ∈ handleListRooms (run ChatServer.new es) ∧
    (∀ n, n ∈ joinedNames es → n ∈ handleListRooms (run ChatServer.new es)) ∧
    (∀ e r, r ∈ handleListRooms (run ChatServer.new es) →
      r ∈ handleListRooms (step (run ChatServer.new es) e)) := by
  refine ⟨?_, fun n hn => joinedNames_subset_roomKeys es ChatServer.new hn,
    fun e r hr => roomKeys_mono_step _ e hr⟩
  exact roomKeys_mono_run ChatServer.new es (by decide)

/-- Claim C8: the heartbeat timer fires every HEARTBEAT_INTERVAL = 5 time
units; a tick whose gap since the last heartbeat exceeds CLIENT_TIMEOUT = 10
sends Disconnect, stops the session and emits no further liveness probe,
otherwise it pings; a received Ping refreshes the last-heartbeat timestamp
and is answered with a matching Pong, and a received Pong refreshes the
timestamp. -/
theorem heartbeat_and_liveness_protocol (act : WsChatSession) (now : Nat)
    (p : String) :
    HEARTBEAT_INTERVAL = 5 ∧ CLIENT_TIMEOUT = 10 ∧
    ((act.hbTick now).disconnects =
      if now - act.hb > CLIENT_TIMEOUT then [act.id] else []) ∧
    ((act.hbTick now).stopped = decide (now - act.hb > CLIENT_TIMEOUT)) ∧
    ((act.hbTick now).pinged = decide (¬ now - act.hb > CLIENT_TIMEOUT)) ∧
    (handleFrame act now (WsMessage.ping p) =
      { state := { act with hb := now }, out := [OutAction.pong p],
        toCoord := [], stopped := false }) ∧
    (handleFrame act now (WsMessage.pong p) =
      { state := { act with hb := now }, out := [], toCoord := [],
        stopped := false }) := by
  refine ⟨rfl, rfl, ?_, ?_, ?_, rfl, rfl⟩ <;>
  · unfold WsChatSession.hbTick
    by_cases h : now - act.hb > CLIENT_TIMEOUT <;> simp [h]

/-- Claim C9: the text frame "/join" with no argument produces exactly the
local error line "!!! room name is required", sends nothing to the
coordinator, and leaves both the session state (in particular its room) and
any coordinator state unchanged. -/
theorem join_without_argument_is_local_error (act : WsChatSession) :
    handleTextFrame act "/join" =
      { state := act, out := [OutAction.text "!!! room name is required"],
        toCoord := [], stopped := false } ∧
    (∀ c : ChatServer, run c (handleTextFrame act "/join").toCoord = c) :=
  ⟨rfl, fun c => rfl⟩

/-- Claim C10: every delivery of the visitor broadcast carries the counter
value from before the increment, the counter equals the number of Connects
handled so far, so the Nth connection broadcasts "Total visitors N-1"; the
first connection broadcasts "Total visitors 0". -/
theorem visitor_broadcast_uses_prior_count (s : ChatServer) (es : List Event)
    (rid : Nat) :
    (∀ j t, (j, t) ∈ (handleConnect s rid).visitorNotice →
      t = "Total visitors " ++ toString s.visitor_count) ∧
    (run ChatServer.new es).visitor_count = countConnects es ∧
    (handleConnect ChatServer.new 7).visitorNotice =
      [((7 : Nat), "Total visitors 0")] := by
  refine ⟨fun j t hmem => ?_, ?_, by decide⟩
  · have hm : (j, t) ∈ send_message (handleConnect s rid).state "Main"
        ("Total visitors " ++ toString s.visitor_count) 0 := hmem
    exact (mem_send_message.mp hm).2.2.2
  · have h := visitor_count_run es ChatServer.new
    simpa [ChatServer.new] using h
